import Mathlib

/-! Verification development for `fit.c`.

`fit.c` holds two closed-form model evaluators (`hyperModel`, `expModel`) and
two drivers (`fitHyper`, `fitExp`) that hand a model to the external
Levenberg-Marquardt routine `lmcurve`.

Embedding conventions.

* `double` is an arbitrary carrier `F` with the arithmetic operations the C
  expression uses (`1`, `+`, `-`, `*`, `/`, unary minus).  The definitions are
  written once for every such carrier, so they evaluate on `Float` and on `ℚ`
  and are reasoned about on `ℝ` or on any field.  Rounding of IEEE doubles is
  not modelled.
* `exp` of `<math.h>` is a parameter `exp : F → F`; on `ℝ` it is `Real.exp`.
* A `double *` is the map from an offset to the double stored there
  (`Vec F := Nat → F`).  The number of allocated cells is not part of a C
  pointer and is not part of `Vec` either.
* `int` is `Int`; the drivers do no integer arithmetic.
* `lmcurve`, `lm_control_struct` and `lm_control_double` come from the lmfit
  headers, which are not among the sources; they are parameters.
-/

namespace Fit

/-- A C array reached through a `double *`: offset `i` holds `p i`. -/
abbrev Vec (F : Type) : Type := Nat → F

/-- The function-pointer type `double (*)(double t, const double *p)`. -/
abbrev Model (F : Type) : Type := F → Vec F → F

/-- The hyperbolic model, `double hyperModel(double t, const double *p)`:
`return 1.0/(p[0] + p[1] * t);` -/
def hyperModel {F : Type} [One F] [Add F] [Mul F] [Div F] (t : F) (p : Vec F) : F :=
  1 / (p 0 + p 1 * t)

/-- The exponential-saturation model,
`double expModel(double t, const double *p)`:
`return 1.0/(p[0] + p[1]*(1 - exp(-t/p[2])));`
In C the unary minus binds tighter than `/`, so the exponent is `(-t)/p[2]`. -/
def expModel {F : Type} [One F] [Add F] [Sub F] [Mul F] [Neg F] [Div F]
    (exp : F → F) (t : F) (p : Vec F) : F :=
  1 / (p 0 + p 1 * (1 - exp ((-t) / p 2)))

/-- Modelled from the spec: the lmfit header that declares `lm_control_struct`
is missing.  The spec describes the solver configuration as "a record of
numeric tolerances and a verbosity/logging level".  The only field `fit.c`
touches is `verbosity`; every other field is kept together in `others`, of
an arbitrary type `T`. -/
structure lm_control_struct (T : Type) where
  others : T
  verbosity : Int

/-- Modelled from the spec: `lmcurve` is the external Levenberg-Marquardt
routine, whose declaration is missing.  It is called as
`lmcurve(n, par, m, t, y, f, &control, &status)`; by the spec no data flows
back except through the mutated parameter vector and a status object from
the solver.  A solver is therefore any function of the seven inputs
that yields the new contents of `par` and a status of arbitrary type `S`. -/
abbrev Lmcurve (F T S : Type) : Type :=
  Int → Vec F → Int → Vec F → Vec F → Model F → lm_control_struct T → Vec F × S

/-- What the caller of a driver can look at once the call has returned: its
own two counts (passed by value) and the three arrays it passed pointers to. -/
structure FitData (F : Type) where
  n : Int
  par : Vec F
  m : Int
  t : Vec F
  y : Vec F

/-- The hyperbolic driver,
`int fitHyper(int n, double *par, int m, double *t, double *y)`.
The result is the returned `int` together with the caller's data after the
call.  The local `status` is written by the solver and then dropped. -/
def fitHyper {F T S : Type} [One F] [Add F] [Mul F] [Div F]
    (lmcurve : Lmcurve F T S) (lm_control_double : lm_control_struct T)
    (n : Int) (par : Vec F) (m : Int) (t y : Vec F) : Int × FitData F :=
  let control : lm_control_struct T := lm_control_double
  let control : lm_control_struct T := { control with verbosity := 7 }
  let solved := lmcurve n par m t y hyperModel control
  (0, { n := n, par := solved.1, m := m, t := t, y := y })

/-- The exponential driver,
`int fitExp(int n, double *par, int m, double *t, double *y)`. -/
def fitExp {F T S : Type} [One F] [Add F] [Sub F] [Mul F] [Neg F] [Div F]
    (exp : F → F) (lmcurve : Lmcurve F T S) (lm_control_double : lm_control_struct T)
    (n : Int) (par : Vec F) (m : Int) (t y : Vec F) : Int × FitData F :=
  let control : lm_control_struct T := lm_control_double
  let control : lm_control_struct T := { control with verbosity := 7 }
  let solved := lmcurve n par m t y (expModel exp) control
  (0, { n := n, par := solved.1, m := m, t := t, y := y })

/-- The parameter array `{a, b}`; cells past the second hold `b`. -/
def vec2 {F : Type} (a b : F) : Vec F
  | 0 => a
  | _ => b

/-- The parameter array `{a, b, c}`; cells past the third hold `c`. -/
def vec3 {F : Type} (a b c : F) : Vec F
  | 0 => a
  | 1 => b
  | _ => c

/-- A solver that stores `f(t[0], par)` in every cell of `par`. -/
def probeSolver : Lmcurve ℝ Unit Unit :=
  fun _ par _ t _ f _ => (fun _ => f (t 0) par, ())

/-! ## Unfolding lemmas, valid for every arithmetic -/

theorem hyperModel_unfold {F : Type} [One F] [Add F] [Mul F] [Div F] (t : F) (p : Vec F) :
    hyperModel t p = 1 / (p 0 + p 1 * t) := rfl

theorem expModel_unfold {F : Type} [One F] [Add F] [Sub F] [Mul F] [Neg F] [Div F]
    (exp : F → F) (t : F) (p : Vec F) :
    expModel exp t p = 1 / (p 0 + p 1 * (1 - exp ((-t) / p 2))) := rfl

theorem fitHyper_unfold {F T S : Type} [One F] [Add F] [Mul F] [Div F]
    (lmcurve : Lmcurve F T S) (dflt : lm_control_struct T)
    (n : Int) (par : Vec F) (m : Int) (t y : Vec F) :
    fitHyper lmcurve dflt n par m t y =
      (0, { n := n
            par := (lmcurve n par m t y hyperModel { others := dflt.others, verbosity := 7 }).1
            m := m, t := t, y := y }) := rfl

theorem fitExp_unfold {F T S : Type} [One F] [Add F] [Sub F] [Mul F] [Neg F] [Div F]
    (exp : F → F) (lmcurve : Lmcurve F T S) (dflt : lm_control_struct T)
    (n : Int) (par : Vec F) (m : Int) (t y : Vec F) :
    fitExp exp lmcurve dflt n par m t y =
      (0, { n := n
            par := (lmcurve n par m t y (expModel exp)
                      { others := dflt.others, verbosity := 7 }).1
            m := m, t := t, y := y }) := rfl

/-! ## The exponential model on the reals -/

/-- For positive `p 2` and `t ≥ 0` the exponential inside `expModel` lies in `(0, 1]`. -/
theorem exp_arg_bounds (p : Vec ℝ) (t : ℝ) (h2 : 0 < p 2) (ht : 0 ≤ t) :
    0 < Real.exp ((-t) / p 2) ∧ Real.exp ((-t) / p 2) ≤ 1 := by
  refine ⟨Real.exp_pos _, ?_⟩
  rw [Real.exp_le_one_iff]
  exact div_nonpos_of_nonpos_of_nonneg (by linarith) h2.le

/-- The denominator of `expModel` on the reals. -/
theorem expModel_den_bounds (p : Vec ℝ) (t : ℝ) (h1 : 0 < p 1) (h2 : 0 < p 2) (ht : 0 ≤ t) :
    p 0 ≤ p 0 + p 1 * (1 - Real.exp ((-t) / p 2)) ∧
      p 0 + p 1 * (1 - Real.exp ((-t) / p 2)) < p 0 + p 1 := by
  obtain ⟨hpos, hle⟩ := exp_arg_bounds p t h2 ht
  constructor
  · nlinarith
  · nlinarith

/-! ## The model evaluators -/

/-- C1. On a field, whenever `p[0] + p[1]*t` is not zero, `hyperModel t p` is
`1 / (p[0] + p[1]*t)`, which is the true reciprocal of that denominator; and a
parameter array `q` that agrees with `p` in cells 0 and 1 gives the same value,
whatever its further cells hold. -/
theorem hyperModel_eq {F : Type} [Field F] (t : F) (p q : Vec F)
    (h : p 0 + p 1 * t ≠ 0) (hq0 : q 0 = p 0) (hq1 : q 1 = p 1) :
    hyperModel t p = 1 / (p 0 + p 1 * t) ∧
      hyperModel t p * (p 0 + p 1 * t) = 1 ∧
      hyperModel t q = hyperModel t p := by
  refine ⟨rfl, ?_, ?_⟩
  · rw [hyperModel_unfold, one_div, inv_mul_cancel₀ h]
  · rw [hyperModel_unfold, hyperModel_unfold, hq0, hq1]

theorem hyperModel_eq_witness :
    (2 : ℚ) + 1 / 2 * 4 ≠ 0 ∧
      hyperModel (4 : ℚ) (vec2 2 (1 / 2)) = 1 / (2 + 1 / 2 * 4) ∧
      hyperModel (4 : ℚ) (vec2 2 (1 / 2)) * (2 + 1 / 2 * 4) = 1 ∧
      hyperModel (4 : ℚ) (vec3 2 (1 / 2) 9) = hyperModel (4 : ℚ) (vec2 2 (1 / 2)) :=
  ⟨by norm_num,
    hyperModel_eq (4 : ℚ) (vec2 2 (1 / 2)) (vec3 2 (1 / 2) 9)
      (by norm_num [vec2]) rfl rfl⟩

/-- C2. On a field with any exponential function, whenever `p[2]` is not zero,
`expModel t p` is `1 / (p[0] + p[1]*(1 - exp(-(t/p[2]))))`, where `t / p[2]` is
the true quotient (it gives `t` back when multiplied by `p[2]`). -/
theorem expModel_eq {F : Type} [Field F] (exp : F → F) (t : F) (p : Vec F)
    (h : p 2 ≠ 0) :
    expModel exp t p = 1 / (p 0 + p 1 * (1 - exp (-(t / p 2)))) ∧
      t / p 2 * p 2 = t := by
  refine ⟨?_, div_mul_cancel₀ t h⟩
  rw [expModel_unfold, neg_div]

theorem expModel_eq_witness :
    (3 : ℝ) ≠ 0 ∧
      expModel Real.exp (5 : ℝ) (vec3 1 2 3) =
        1 / (1 + 2 * (1 - Real.exp (-((5 : ℝ) / 3)))) ∧
      (5 : ℝ) / 3 * 3 = 5 :=
  ⟨by norm_num, expModel_eq Real.exp (5 : ℝ) (vec3 1 2 3) (by norm_num [vec3])⟩

/-- C8. The evaluators have no guard and no error result: in every arithmetic,
when the denominator `p[0] + p[1]*t` is zero `hyperModel` returns the quotient
`1 / 0` of that arithmetic, and when `q[0] + q[1]*(1 - exp(-t/q[2]))` is zero
`expModel` returns `1 / 0` as well. -/
theorem models_unguarded {F : Type} [Zero F] [One F] [Add F] [Sub F] [Mul F] [Neg F] [Div F]
    (exp : F → F) (t u : F) (p q : Vec F)
    (hp : p 0 + p 1 * t = 0) (hq : q 0 + q 1 * (1 - exp ((-u) / q 2)) = 0) :
    hyperModel t p = 1 / 0 ∧ expModel exp u q = 1 / 0 := by
  constructor
  · rw [hyperModel_unfold, hp]
  · rw [expModel_unfold, hq]

theorem models_unguarded_witness :
    ((1 : ℝ) + -1 / 2 * 2 = 0 ∧ (0 : ℝ) + 1 * (1 - Real.exp ((-0) / 1)) = 0) ∧
      hyperModel (2 : ℝ) (vec2 1 (-1 / 2)) = 1 / 0 ∧
      expModel Real.exp (0 : ℝ) (vec3 0 1 1) = 1 / 0 :=
  ⟨⟨by norm_num, by simp⟩,
    models_unguarded Real.exp (2 : ℝ) (0 : ℝ) (vec2 1 (-1 / 2)) (vec3 0 1 1)
      (by norm_num [vec2]) (by simp [vec3])⟩

/-! ## The drivers -/

/-- C3. For every input and every solver, whatever parameter vector and status
the solver yields, `fitHyper` and `fitExp` both return 0. -/
theorem fit_returns_zero {F T S : Type} [One F] [Add F] [Sub F] [Mul F] [Neg F] [Div F]
    (exp : F → F) (lmcurve : Lmcurve F T S) (lm_control_double : lm_control_struct T)
    (n : Int) (par : Vec F) (m : Int) (t y : Vec F) :
    (fitHyper lmcurve lm_control_double n par m t y).1 = 0 ∧
      (fitExp exp lmcurve lm_control_double n par m t y).1 = 0 :=
  ⟨rfl, rfl⟩

theorem hyperModel_ne_expModel_at :
    hyperModel (1 : ℝ) (vec3 1 1 1) ≠ expModel Real.exp (1 : ℝ) (vec3 1 1 1) := by
  intro h
  rw [hyperModel_unfold, expModel_unfold, one_div, one_div, inv_inj] at h
  have hpos := Real.exp_pos ((-(1 : ℝ)) / vec3 (1 : ℝ) 1 1 2)
  simp only [vec3] at h hpos
  linarith

/-- C4. The parameter vector left by `fitHyper` is the one the solver yields
when called with the caller's `n, par, m, t, y`, the model `hyperModel` and the
driver's configuration; the one left by `fitExp` is the one the solver yields
with `expModel`.  The pairing matters: there are a solver and data for which
`fitHyper` does not leave what the solver yields with `expModel`, and `fitExp`
does not leave what it yields with `hyperModel`. -/
theorem fit_calls_solver {F T S : Type} [One F] [Add F] [Sub F] [Mul F] [Neg F] [Div F]
    (exp : F → F) (lmcurve : Lmcurve F T S) (lm_control_double : lm_control_struct T)
    (n : Int) (par : Vec F) (m : Int) (t y : Vec F) :
    (fitHyper lmcurve lm_control_double n par m t y).2.par =
        (lmcurve n par m t y hyperModel
          { others := lm_control_double.others, verbosity := 7 }).1 ∧
      (fitExp exp lmcurve lm_control_double n par m t y).2.par =
        (lmcurve n par m t y (expModel exp)
          { others := lm_control_double.others, verbosity := 7 }).1 ∧
      ∃ (lm : Lmcurve ℝ Unit Unit) (c : lm_control_struct Unit) (k j : Int) (a b d : Vec ℝ),
        (fitHyper lm c k a j b d).2.par ≠
            (lm k a j b d (expModel Real.exp) { others := c.others, verbosity := 7 }).1 ∧
          (fitExp Real.exp lm c k a j b d).2.par ≠
            (lm k a j b d hyperModel { others := c.others, verbosity := 7 }).1 := by
  refine ⟨rfl, rfl, probeSolver, ⟨(), 0⟩, 3, 1, vec3 1 1 1, vec2 1 1, vec2 1 1, ?_, ?_⟩
  · intro h
    exact hyperModel_ne_expModel_at (congrFun h 0)
  · intro h
    exact hyperModel_ne_expModel_at (congrFun h 0).symm

/-- C5. There is one configuration, equal to the library default
`lm_control_double` in every field but `verbosity` and with `verbosity = 7`,
that both drivers hand to the solver for every solver and every input
`n, par, m, t, y`. -/
theorem fit_control {F T S : Type} [One F] [Add F] [Sub F] [Mul F] [Neg F] [Div F]
    (exp : F → F) (lm_control_double : lm_control_struct T) :
    ∃ control : lm_control_struct T,
      control.verbosity = 7 ∧ control.others = lm_control_double.others ∧
      ∀ (lmcurve : Lmcurve F T S) (n : Int) (par : Vec F) (m : Int) (t y : Vec F),
        fitHyper lmcurve lm_control_double n par m t y =
            (0, { n := n, par := (lmcurve n par m t y hyperModel control).1,
                  m := m, t := t, y := y }) ∧
          fitExp exp lmcurve lm_control_double n par m t y =
            (0, { n := n, par := (lmcurve n par m t y (expModel exp) control).1,
                  m := m, t := t, y := y }) :=
  ⟨{ others := lm_control_double.others, verbosity := 7 }, rfl, rfl,
    fun _ _ _ _ _ _ => ⟨rfl, rfl⟩⟩

/-- C7. After `fitHyper` or `fitExp` returns, `t`, `y`, `n` and `m` are what
they were before the call, for every input and every solver; `par` is the only
part of the caller's data that can differ. -/
theorem fit_frame {F T S : Type} [One F] [Add F] [Sub F] [Mul F] [Neg F] [Div F]
    (exp : F → F) (lmcurve : Lmcurve F T S) (lm_control_double : lm_control_struct T)
    (n : Int) (par : Vec F) (m : Int) (t y : Vec F) :
    ((fitHyper lmcurve lm_control_double n par m t y).2.t = t ∧
        (fitHyper lmcurve lm_control_double n par m t y).2.y = y ∧
        (fitHyper lmcurve lm_control_double n par m t y).2.n = n ∧
        (fitHyper lmcurve lm_control_double n par m t y).2.m = m) ∧
      ((fitExp exp lmcurve lm_control_double n par m t y).2.t = t ∧
        (fitExp exp lmcurve lm_control_double n par m t y).2.y = y ∧
        (fitExp exp lmcurve lm_control_double n par m t y).2.n = n ∧
        (fitExp exp lmcurve lm_control_double n par m t y).2.m = m) :=
  ⟨⟨rfl, rfl, rfl, rfl⟩, ⟨rfl, rfl, rfl, rfl⟩⟩

/-! ## Relations between the models on the reals -/

/-- C9. On the reals, for parameter arrays `p` (with `p[2] ≠ 0`) and `q` that
share cell 0, `expModel 0 p = hyperModel 0 q = 1 / p[0]`: the value at the
origin depends on `p[0]` only. -/
theorem models_agree_at_origin (p q : Vec ℝ) (h2 : p 2 ≠ 0) (h0 : q 0 = p 0) :
    expModel Real.exp 0 p = hyperModel 0 q ∧ hyperModel 0 q = 1 / p 0 := by
  have hq : hyperModel (0 : ℝ) q = 1 / p 0 := by
    rw [hyperModel_unfold, h0, mul_zero, add_zero]
  have hx : (-(0 : ℝ)) / p 2 = 0 := (div_eq_iff h2).mpr (by simp)
  refine ⟨?_, hq⟩
  rw [hq, expModel_unfold, hx, Real.exp_zero, sub_self, mul_zero, add_zero]

theorem models_agree_at_origin_witness :
    (3 : ℝ) ≠ 0 ∧
      expModel Real.exp 0 (vec3 (4 : ℝ) 2 3) = hyperModel 0 (vec2 (4 : ℝ) 7) ∧
      hyperModel 0 (vec2 (4 : ℝ) 7) = 1 / 4 :=
  ⟨by norm_num,
    models_agree_at_origin (vec3 (4 : ℝ) 2 3) (vec2 (4 : ℝ) 7) (by norm_num [vec3]) rfl⟩

/-- C10. On the reals with `p[0], p[1], p[2] > 0` and `0 ≤ t1 ≤ t2`:
`expModel` does not increase from `t1` to `t2`, strictly decreases when
`t1 < t2`, and `1/(p[0]+p[1]) < expModel t1 p ≤ 1/p[0]`, with equality on the
right exactly when `t1 = 0`. -/
theorem expModel_saturates (p : Vec ℝ) (t1 t2 : ℝ)
    (h0 : 0 < p 0) (h1 : 0 < p 1) (h2 : 0 < p 2) (ht1 : 0 ≤ t1) (ht : t1 ≤ t2) :
    expModel Real.exp t2 p ≤ expModel Real.exp t1 p ∧
      (t1 < t2 → expModel Real.exp t2 p < expModel Real.exp t1 p) ∧
      1 / (p 0 + p 1) < expModel Real.exp t1 p ∧
      expModel Real.exp t1 p ≤ 1 / p 0 ∧
      (expModel Real.exp t1 p = 1 / p 0 ↔ t1 = 0) := by
  obtain ⟨hlo, hhi⟩ := expModel_den_bounds p t1 h1 h2 ht1
  have hD1 : 0 < p 0 + p 1 * (1 - Real.exp ((-t1) / p 2)) := lt_of_lt_of_le h0 hlo
  simp only [expModel_unfold]
  refine ⟨?_, ?_, ?_, ?_, ?_⟩
  · apply one_div_le_one_div_of_le hD1
    have he : Real.exp ((-t2) / p 2) ≤ Real.exp ((-t1) / p 2) :=
      Real.exp_le_exp.mpr ((div_le_div_iff_of_pos_right h2).mpr (by linarith))
    nlinarith
  · intro hlt
    apply one_div_lt_one_div_of_lt hD1
    have he : Real.exp ((-t2) / p 2) < Real.exp ((-t1) / p 2) :=
      Real.exp_lt_exp.mpr ((div_lt_div_iff_of_pos_right h2).mpr (by linarith))
    nlinarith
  · exact one_div_lt_one_div_of_lt hD1 hhi
  · exact one_div_le_one_div_of_le h0 hlo
  · rw [one_div, one_div, inv_inj]
    constructor
    · intro h
      have he : Real.exp ((-t1) / p 2) = 1 := by
        have hz : p 1 * (1 - Real.exp ((-t1) / p 2)) = 0 := by linarith
        rcases mul_eq_zero.mp hz with hp | hp
        · exact absurd hp h1.ne.symm
        · linarith
      have hx : (-t1) / p 2 = 0 := (Real.exp_eq_one_iff _).mp he
      rcases div_eq_zero_iff.mp hx with hx | hx
      · linarith
      · exact absurd hx h2.ne.symm
    · intro h
      rw [h, neg_zero, zero_div, Real.exp_zero, sub_self, mul_zero, add_zero]

theorem expModel_saturates_witness :
    ((0 : ℝ) < 1 ∧ (0 : ℝ) < 2 ∧ (0 : ℝ) < 3 ∧ (0 : ℝ) ≤ 1 ∧ (1 : ℝ) ≤ 2) ∧
      expModel Real.exp 2 (vec3 (1 : ℝ) 2 3) ≤ expModel Real.exp 1 (vec3 (1 : ℝ) 2 3) ∧
      ((1 : ℝ) < 2 →
        expModel Real.exp 2 (vec3 (1 : ℝ) 2 3) < expModel Real.exp 1 (vec3 (1 : ℝ) 2 3)) ∧
      1 / ((1 : ℝ) + 2) < expModel Real.exp 1 (vec3 (1 : ℝ) 2 3) ∧
      expModel Real.exp 1 (vec3 (1 : ℝ) 2 3) ≤ 1 / 1 ∧
      (expModel Real.exp 1 (vec3 (1 : ℝ) 2 3) = 1 / 1 ↔ (1 : ℝ) = 0) :=
  ⟨by norm_num,
    expModel_saturates (vec3 (1 : ℝ) 2 3) 1 2
      (by norm_num [vec3]) (by norm_num [vec3]) (by norm_num [vec3])
      (by norm_num) (by norm_num)⟩

end Fit
